import Mathlib

/-! The initial schema migration of the yield server.

A shallow embedding of `migrations/1661488110733_init.js`.  The script exports
one function, `up`, a straight-line sequence of calls on the migration builder
`pgm`.  `up` is embedded as the ordered list of those calls,
each call carrying the arguments the script passes, literally.

On top of the embedding sit
* the views of the call list used by the statements (tables, triggers, ...),
* the row-admission semantics of the declared column constraints
  (type, NOT NULL, UNIQUE, PRIMARY KEY, REFERENCES) as PostgreSQL enforces them.
-/

namespace YieldServer

/-! ## Arguments of the builder calls -/

/-- A column default as the script writes it: `pgm.func('...')` or
`new PgLiteral('...')`; both carry the SQL text emitted unquoted. -/
inductive DefaultValue where
  | func (sql : String)
  | PgLiteral (sql : String)
  deriving DecidableEq, Repr

/-- The object form of a column definition, with the options the script uses.
An option the script leaves out has the builder's default (`false`, absent). -/
structure ColumnDefinition where
  type : String
  notNull : Bool := false
  unique : Bool := false
  primaryKey : Bool := false
  default : Option DefaultValue := none
  references : Option String := none
  deriving DecidableEq, Repr

/-- A column as written in the script: either the string shorthand
(`poolMeta: 'text'`) or the object form. -/
inductive ColumnSpec where
  | shorthand (type : String)
  | definition (d : ColumnDefinition)
  deriving DecidableEq, Repr

/-- The builder reads the string shorthand as the object with only `type` set. -/
def ColumnSpec.normalize : ColumnSpec → ColumnDefinition
  | .shorthand ty => { type := ty }
  | .definition d => d

/-- Options of `createExtension`. -/
structure ExtensionOptions where
  ifNotExists : Bool := false
  deriving DecidableEq, Repr

/-- Options of `createFunction`. -/
structure FunctionOptions where
  language : String
  returns : String
  replace : Bool := false
  deriving DecidableEq, Repr

/-- Options of `createTrigger`. -/
structure TriggerOptions where
  when : String
  operation : String
  function : String
  level : String
  deriving DecidableEq, Repr

/-- One call on the migration builder `pgm`. -/
inductive Call where
  | createExtension (extension : String) (options : ExtensionOptions)
  | createTable (tableName : String) (columns : List (String × ColumnSpec))
  | createFunction (functionName : String) (functionParams : List String)
      (options : FunctionOptions) (definition : String)
  | createTrigger (tableName : String) (triggerName : String) (options : TriggerOptions)
  deriving DecidableEq, Repr

/-! ## The script -/

/-- The calls `exports.up` makes on `pgm`, in order. -/
def up : List Call :=
  [ -- ----- ADD UUID EXTENSION
    .createExtension "uuid-ossp" { ifNotExists := true },
    -- --- config
    .createTable "config"
      [ ("config_id", .definition { type := "uuid", primaryKey := true }),
        ("pool", .definition { type := "text", notNull := true, unique := true }),
        ("project", .definition { type := "text", notNull := true }),
        ("chain", .definition { type := "text", notNull := true }),
        ("symbol", .definition { type := "text", notNull := true }),
        ("poolMeta", .shorthand "text"),
        ("underlyingTokens", .definition { type := "text[]" }),
        ("rewardTokens", .definition { type := "text[]" }),
        ("url", .definition { type := "text", notNull := true }),
        ("updated_at", .definition
          { type := "timestamptz", notNull := true,
            default := some (.func "current_timestamp") }) ],
    -- --- yield
    .createTable "yield"
      [ ("yield_id", .definition
          { type := "uuid", default := some (.PgLiteral "uuid_generate_v4()"),
            primaryKey := true }),
        ("configID", .definition
          { type := "uuid", notNull := true, references := some "\"config\"" }),
        ("timestamp", .definition { type := "timestamptz", notNull := true }),
        ("tvlUsd", .definition { type := "bigint", notNull := true }),
        ("apy", .definition { type := "numeric", notNull := true }),
        ("apyBase", .shorthand "numeric"),
        ("apyReward", .shorthand "numeric") ],
    -- --- stat
    .createTable "stat"
      [ ("stat_id", .definition { type := "uuid", primaryKey := true }),
        ("count", .definition { type := "smallint", notNull := true }),
        ("meanAPY", .definition { type := "numeric", notNull := true }),
        ("mean2APY", .shorthand "numeric"),
        ("meanDR", .definition { type := "numeric", notNull := true }),
        ("mean2DR", .shorthand "numeric"),
        ("productDR", .definition { type := "numeric", notNull := true }),
        ("updated_at", .definition
          { type := "timestamptz", notNull := true,
            default := some (.func "current_timestamp") }) ],
    -- --- median
    .createTable "median"
      [ ("median_id", .definition
          { type := "uuid", default := some (.PgLiteral "uuid_generate_v4()"),
            primaryKey := true }),
        ("uniquePools", .definition { type := "integer", notNull := true }),
        ("medianAPY", .definition { type := "numeric", notNull := true }),
        ("timestamp", .definition { type := "timestamptz", notNull := true, unique := true }) ],
    -- --- enriched
    .createTable "enriched"
      [ ("enriched_id", .definition { type := "uuid", primaryKey := true }),
        ("apyPct1D", .shorthand "numeric"),
        ("apyPct7D", .shorthand "numeric"),
        ("apyPct30D", .shorthand "numeric"),
        ("stablecoin", .definition { type := "boolean", notNull := true }),
        ("ilRisk", .definition { type := "text", notNull := true }),
        ("exposure", .definition { type := "text", notNull := true }),
        ("predictions", .definition { type := "jsonb", notNull := true }),
        ("mu", .definition { type := "numeric", notNull := true }),
        ("sigma", .definition { type := "numeric", notNull := true }),
        ("count", .definition { type := "smallint", notNull := true }),
        ("outlier", .definition { type := "boolean", notNull := true }),
        ("return", .definition { type := "numeric", notNull := true }),
        ("apyMeanExpanding", .definition { type := "numeric", notNull := true }),
        ("apyStdExpanding", .definition { type := "numeric", notNull := true }),
        ("chain_factorized", .definition { type := "smallint", notNull := true }),
        ("project_factorized", .definition { type := "smallint", notNull := true }),
        ("updated_at", .definition
          { type := "timestamptz", notNull := true,
            default := some (.func "current_timestamp") }) ],
    -- FUNCTIONS
    .createFunction "update_updated_at" []
      { language := "plpgsql", returns := "TRIGGER", replace := true }
      "\n    BEGIN\n        NEW.updated_at = now();\n        RETURN NEW;\n    END\n    ",
    -- TRIGGERS
    .createTrigger "config" "update_updated_at"
      { when := "BEFORE", operation := "UPDATE", function := "update_updated_at", level := "ROW" },
    .createTrigger "stat" "update_updated_at"
      { when := "BEFORE", operation := "UPDATE", function := "update_updated_at", level := "ROW" },
    .createTrigger "enriched" "update_updated_at"
      { when := "BEFORE", operation := "UPDATE", function := "update_updated_at", level := "ROW" } ]

/-! ## Views of a call list -/

/-- Which builder method a call is. -/
inductive CallKind where
  | createExtension | createTable | createFunction | createTrigger
  deriving DecidableEq, Repr

/-- The method of a call. -/
def Call.kind : Call → CallKind
  | .createExtension .. => .createExtension
  | .createTable .. => .createTable
  | .createFunction .. => .createFunction
  | .createTrigger .. => .createTrigger

/-- A created table: its name and its columns in normalised (object) form. -/
structure Table where
  name : String
  columns : List (String × ColumnDefinition)
  deriving DecidableEq, Repr

/-- A created trigger. -/
structure Trigger where
  tableName : String
  triggerName : String
  options : TriggerOptions
  deriving DecidableEq, Repr

/-- A created function. -/
structure Function where
  functionName : String
  functionParams : List String
  options : FunctionOptions
  definition : String
  deriving DecidableEq, Repr

/-- The extensions a call list creates, in order. -/
def extensions (calls : List Call) : List (String × ExtensionOptions) :=
  calls.filterMap fun
    | .createExtension e o => some (e, o)
    | _ => none

/-- The tables a call list creates, in order. -/
def tables (calls : List Call) : List Table :=
  calls.filterMap fun
    | .createTable n cols => some { name := n, columns := cols.map fun c => (c.1, c.2.normalize) }
    | _ => none

/-- The functions a call list creates, in order. -/
def functions (calls : List Call) : List Function :=
  calls.filterMap fun
    | .createFunction n ps o d =>
        some { functionName := n, functionParams := ps, options := o, definition := d }
    | _ => none

/-- The triggers a call list creates, in order. -/
def triggers (calls : List Call) : List Trigger :=
  calls.filterMap fun
    | .createTrigger t n o => some { tableName := t, triggerName := n, options := o }
    | _ => none

/-- The names of the created tables, in order. -/
def tableNames (calls : List Call) : List String :=
  (tables calls).map (·.name)

/-- The table of a given name (an empty table when the list creates none). -/
def tableD (calls : List Call) (name : String) : Table :=
  ((tables calls).find? (·.name == name)).getD { name := name, columns := [] }

/-- The definition of a column of a table, when the table declares it. -/
def Table.column? (t : Table) (c : String) : Option ColumnDefinition :=
  t.columns.lookup c

/-- The names of the columns of a table, in order. -/
def Table.columnNames (t : Table) : List String :=
  t.columns.map (·.1)

/-- The columns declared `primaryKey`, in order: together they are the
table's primary key. -/
def Table.primaryKey (t : Table) : List String :=
  (t.columns.filter (·.2.primaryKey)).map (·.1)

/-- A quoted identifier names the object between the quotes. -/
def unquote (s : String) : String :=
  match s.toList with
  | '"' :: rest => if rest.getLast? = some '"' then String.mk rest.dropLast else s
  | _ => s

/-- The tables a table's columns reference, by column. -/
def Table.foreignKeys (t : Table) : List (String × String) :=
  t.columns.filterMap fun cd => cd.2.references.map fun ref => (cd.1, unquote ref)

/-! ## Stored values and row admission

The constraints the script declares are enforced by PostgreSQL on every stored
row.  A stored value is NULL or a value of one of the column types the script
uses; the integer types have their two's-complement ranges. -/

/-- A stored value. -/
inductive Value where
  | null
  | uuid (u : Nat)
  | text (s : String)
  | textArray (xs : List String)
  | int (i : Int)
  | numeric (q : ℚ)
  | timestamptz (t : Int)
  | boolean (b : Bool)
  | jsonb (s : String)
  deriving DecidableEq

/-- Whether a stored value is of a column type (NULL is of every type). -/
def Value.hasType (ty : String) : Value → Bool
  | .null => true
  | .uuid u => ty == "uuid" && decide (u < 2 ^ 128)
  | .text _ => ty == "text"
  | .textArray _ => ty == "text[]"
  | .int i =>
      (ty == "smallint" && decide (-2 ^ 15 ≤ i ∧ i < 2 ^ 15)) ||
      (ty == "integer" && decide (-2 ^ 31 ≤ i ∧ i < 2 ^ 31)) ||
      (ty == "bigint" && decide (-2 ^ 63 ≤ i ∧ i < 2 ^ 63))
  | .numeric _ => ty == "numeric"
  | .timestamptz _ => ty == "timestamptz"
  | .boolean _ => ty == "boolean"
  | .jsonb _ => ty == "jsonb"

/-- A stored row: column name to value. -/
abbrev Row := List (String × Value)

/-- The value a row holds in a column (NULL when it holds none). -/
def Row.get (r : Row) (c : String) : Value :=
  (r.lookup c).getD .null

/-- The stored rows of every table. -/
abbrev Database := List (String × List Row)

/-- The rows of a table. -/
def Database.rows (db : Database) (table : String) : List Row :=
  (db.lookup table).getD []

/-- A row fits a table: it has no column the table lacks, every value is of
its column's type, and a `notNull` or `primaryKey` column is not NULL. -/
def Table.rowOk (t : Table) (r : Row) : Prop :=
  (∀ kv ∈ r, kv.1 ∈ t.columnNames) ∧
  ∀ cd ∈ t.columns,
    (r.get cd.1).hasType cd.2.type = true ∧
    ((cd.2.notNull = true ∨ cd.2.primaryKey = true) → r.get cd.1 ≠ .null)

instance (t : Table) (r : Row) : Decidable (t.rowOk r) := by
  unfold Table.rowOk; infer_instance

/-- The key constraints of a table hold of its rows: no two rows agree on the
primary key, and no two rows agree on a non-NULL value of a `unique` column. -/
def Table.keysOk (t : Table) (rows : List Row) : Prop :=
  rows.Pairwise (fun a b => t.primaryKey.map a.get ≠ t.primaryKey.map b.get) ∧
  ∀ cd ∈ t.columns, cd.2.unique = true →
    rows.Pairwise (fun a b => a.get cd.1 = b.get cd.1 → a.get cd.1 = .null)

instance (t : Table) (rows : List Row) : Decidable (t.keysOk rows) := by
  unfold Table.keysOk; infer_instance

/-- What a `references` option points at: the referenced table and its
primary-key column (`references` names a table and no column). -/
def referencedKey (schema : List Table) (ref : String) : Option (String × String) :=
  match schema.find? (·.name == unquote ref) with
  | some target =>
      match target.primaryKey with
      | [pk] => some (target.name, pk)
      | _ => none
  | none => none

/-- The foreign keys of a table hold in a database: a non-NULL value of a
column with `references` is the primary key of a row of the referenced table. -/
def Table.referencesOk (t : Table) (schema : List Table) (db : Database) : Prop :=
  ∀ cd ∈ t.columns, ∀ ref ∈ cd.2.references,
    ∀ r ∈ db.rows t.name, r.get cd.1 ≠ .null →
      ∃ key ∈ referencedKey schema ref, ∃ r' ∈ db.rows key.1, r'.get key.2 = r.get cd.1

instance (t : Table) (schema : List Table) (db : Database) :
    Decidable (t.referencesOk schema db) := by
  unfold Table.referencesOk; infer_instance

/-- A database is admitted by a schema: every table's rows fit the table and
satisfy its key and foreign-key constraints. -/
def admits (schema : List Table) (db : Database) : Prop :=
  ∀ t ∈ schema,
    (∀ r ∈ db.rows t.name, t.rowOk r) ∧ t.keysOk (db.rows t.name) ∧ t.referencesOk schema db

instance (schema : List Table) (db : Database) : Decidable (admits schema db) := by
  unfold admits; infer_instance

/-! ## Further views used by the statements -/

/-- The `unique` columns that are not primary-key columns, as (table, column). -/
def uniqueColumns (calls : List Call) : List (String × String) :=
  (tables calls).flatMap fun t =>
    (t.columns.filter fun cd => cd.2.unique && !cd.2.primaryKey).map fun cd => (t.name, cd.1)

/-- A column is required when it is `notNull` or part of the primary key. -/
def ColumnDefinition.required (d : ColumnDefinition) : Bool :=
  d.notNull || d.primaryKey

/-- The required columns of a table, in order. -/
def Table.requiredColumns (t : Table) : List String :=
  (t.columns.filter (·.2.required)).map (·.1)

/-- The optional (nullable) columns of a table, in order. -/
def Table.optionalColumns (t : Table) : List String :=
  (t.columns.filter (!·.2.required)).map (·.1)

/-- The lines of a text. -/
def splitLines (cs : List Char) : List (List Char) :=
  cs.foldr
    (fun c acc =>
      if c = '\n' then [] :: acc
      else match acc with
        | l :: ls => (c :: l) :: ls
        | [] => [[c]])
    [[]]

/-- A line without its leading and trailing blanks. -/
def trimBlanks (cs : List Char) : List Char :=
  ((cs.dropWhile (· == ' ')).reverse.dropWhile (· == ' ')).reverse

/-- The non-empty lines of an SQL body, each without its indentation. -/
def sqlLines (body : String) : List String :=
  ((splitLines body.toList).map trimBlanks).filterMap fun l =>
    if l.isEmpty then none else some (String.mk l)

/-- The row an INSERT stores: a column the statement supplies holds the
supplied value, another column holds its default as the database evaluates it
(`eval`), and NULL when it has no default. -/
def Table.insert (t : Table) (eval : DefaultValue → Value) (supplied : Row) : Row :=
  t.columns.map fun cd =>
    (cd.1,
      match supplied.lookup cd.1 with
      | some v => v
      | none =>
          match cd.2.default with
          | some d => eval d
          | none => .null)

/-- A call creates the extension of a name. -/
def Call.createsExtension (name : String) : Call → Bool
  | .createExtension e _ => e == name
  | _ => false

/-- A call creates the table of a name. -/
def Call.createsTable (name : String) : Call → Bool
  | .createTable n _ => n == name
  | _ => false

/-- A call creates the function of a name. -/
def Call.createsFunction (name : String) : Call → Bool
  | .createFunction n _ _ _ => n == name
  | _ => false

/-- The column defaults a call declares (of a `createTable` only). -/
def Call.defaults : Call → List DefaultValue
  | .createTable _ cols => cols.filterMap (·.2.normalize.default)
  | _ => []

/-- The tables a call's columns reference (of a `createTable` only). -/
def Call.referencedTables : Call → List String
  | .createTable _ cols => cols.filterMap fun c => c.2.normalize.references.map unquote
  | _ => []

/-- A stored value is a non-negative integer. -/
def Value.nonNegativeInteger (v : Value) : Prop :=
  ∃ n : Nat, v = .int (n : Int)

/-- The table and the function a `createTrigger` call names. -/
def Call.triggerUses : Call → Option (String × String)
  | .createTrigger t _ o => some (t, o.function)
  | _ => none

/-- The default of a column of a table, when it declares one. -/
def Table.defaultOf (t : Table) (c : String) : Option DefaultValue :=
  (t.column? c).bind (·.default)

/-- A sample database: two pools, three observations, one statistics row. -/
def sampleDb : Database :=
  [ ("config",
      [ [("config_id", .uuid 1), ("pool", .text "0xaaa"), ("project", .text "aave"),
         ("chain", .text "ethereum"), ("symbol", .text "USDC"), ("url", .text "https://a"),
         ("updated_at", .timestamptz 0)],
        [("config_id", .uuid 2), ("pool", .text "0xbbb"), ("project", .text "curve"),
         ("chain", .text "ethereum"), ("symbol", .text "DAI"), ("poolMeta", .text "3pool"),
         ("underlyingTokens", .textArray ["0x1", "0x2"]), ("url", .text "https://b"),
         ("updated_at", .timestamptz 5)] ]),
    ("yield",
      [ [("yield_id", .uuid 10), ("configID", .uuid 1), ("timestamp", .timestamptz 3600),
         ("tvlUsd", .int 1000), ("apy", .numeric 2)],
        [("yield_id", .uuid 11), ("configID", .uuid 1), ("timestamp", .timestamptz 7200),
         ("tvlUsd", .int (-1)), ("apy", .numeric (11 / 5)), ("apyBase", .numeric 1)],
        [("yield_id", .uuid 12), ("configID", .uuid 2), ("timestamp", .timestamptz 7200),
         ("tvlUsd", .int 0), ("apy", .numeric 0)] ]),
    ("stat",
      [ [("stat_id", .uuid 7), ("count", .int 2), ("meanAPY", .numeric (21 / 10)),
         ("mean2APY", .numeric (1 / 50)), ("meanDR", .numeric 0), ("productDR", .numeric 1),
         ("updated_at", .timestamptz 7200)] ]),
    ("median",
      [ [("median_id", .uuid 20), ("uniquePools", .int 2), ("medianAPY", .numeric 1),
         ("timestamp", .timestamptz 7200)] ]) ]

/-- A database in which the statistics row and the enriched row of a pool
carry the pool's config identifier as their own primary key. -/
def sharedIdDb : Database :=
  [ ("config",
      [ [("config_id", .uuid 1), ("pool", .text "0xaaa"), ("project", .text "aave"),
         ("chain", .text "ethereum"), ("symbol", .text "USDC"), ("url", .text "https://a"),
         ("updated_at", .timestamptz 0)] ]),
    ("stat",
      [ [("stat_id", .uuid 1), ("count", .int 1), ("meanAPY", .numeric 2),
         ("mean2APY", .numeric 0), ("meanDR", .numeric 0), ("productDR", .numeric 1),
         ("updated_at", .timestamptz 3600)] ]),
    ("enriched",
      [ [("enriched_id", .uuid 1), ("stablecoin", .boolean true), ("ilRisk", .text "no"),
         ("exposure", .text "single"), ("predictions", .jsonb "null"), ("mu", .numeric 0),
         ("sigma", .numeric 0), ("count", .int 1), ("outlier", .boolean false),
         ("return", .numeric 0), ("apyMeanExpanding", .numeric 2),
         ("apyStdExpanding", .numeric 0), ("chain_factorized", .int 0),
         ("project_factorized", .int 0), ("updated_at", .timestamptz 3600)] ]) ]

/-! ## Facts about admission -/

/-- In an admitted database a `notNull` or primary-key column holds no NULL. -/
theorem admits_notNull {schema : List Table} {db : Database} (h : admits schema db)
    {t : Table} (ht : t ∈ schema) {c : String} {d : ColumnDefinition}
    (hc : (c, d) ∈ t.columns) (hn : d.notNull = true ∨ d.primaryKey = true) :
    ∀ r ∈ db.rows t.name, r.get c ≠ .null :=
  fun r hr => (((h t ht).1 r hr).2 (c, d) hc).2 hn

/-- In an admitted database every value is of the type of its column. -/
theorem admits_hasType {schema : List Table} {db : Database} (h : admits schema db)
    {t : Table} (ht : t ∈ schema) {c : String} {d : ColumnDefinition}
    (hc : (c, d) ∈ t.columns) :
    ∀ r ∈ db.rows t.name, (r.get c).hasType d.type = true :=
  fun r hr => (((h t ht).1 r hr).2 (c, d) hc).1

/-- In an admitted database no two rows agree on a `unique`, `notNull` column. -/
theorem admits_unique {schema : List Table} {db : Database} (h : admits schema db)
    {t : Table} (ht : t ∈ schema) {c : String} {d : ColumnDefinition}
    (hc : (c, d) ∈ t.columns) (hu : d.unique = true) (hn : d.notNull = true) :
    (db.rows t.name).Pairwise (fun a b => a.get c ≠ b.get c) := by
  have hp := (h t ht).2.1.2 (c, d) hc hu
  refine hp.imp_of_mem ?_
  intro a b ha _ hab heq
  exact admits_notNull h ht hc (Or.inl hn) a ha (hab heq)

/-- A non-NULL value of type `text` is a text. -/
theorem hasType_text {v : Value} (h : v.hasType "text" = true) (hn : v ≠ .null) :
    ∃ s, v = .text s := by
  cases v <;> simp_all [Value.hasType]

/-- A non-NULL value of type `timestamptz` is a timestamp. -/
theorem hasType_timestamptz {v : Value} (h : v.hasType "timestamptz" = true) (hn : v ≠ .null) :
    ∃ t, v = .timestamptz t := by
  cases v <;> simp_all [Value.hasType]

/-- A non-NULL value of type `bigint` is an integer of the signed 64-bit range. -/
theorem hasType_bigint {v : Value} (h : v.hasType "bigint" = true) (hn : v ≠ .null) :
    ∃ i : Int, v = .int i ∧ -2 ^ 63 ≤ i ∧ i < 2 ^ 63 := by
  cases v <;> simp_all [Value.hasType]

/-- A non-NULL value of type `uuid` is a 128-bit identifier. -/
theorem hasType_uuid {v : Value} (h : v.hasType "uuid" = true) (hn : v ≠ .null) :
    ∃ u : Nat, v = .uuid u ∧ u < 2 ^ 128 := by
  cases v <;> simp_all [Value.hasType]

/-- In an admitted database a required column holds no NULL. -/
theorem admits_required {schema : List Table} {db : Database} (h : admits schema db)
    {t : Table} (ht : t ∈ schema) {c : String} (hc : c ∈ t.requiredColumns) :
    ∀ r ∈ db.rows t.name, r.get c ≠ .null := by
  simp only [Table.requiredColumns, List.mem_map, List.mem_filter] at hc
  obtain ⟨⟨c', d⟩, ⟨hmem, hreq⟩, rfl⟩ := hc
  refine admits_notNull h ht hmem ?_
  simpa [ColumnDefinition.required] using hreq

/-- What an INSERT stores in the first column of a table. -/
theorem insert_get_first (t : Table) (eval : DefaultValue → Value) (supplied : Row)
    (c : String) (d : ColumnDefinition) (rest : List (String × ColumnDefinition))
    (h : t.columns = (c, d) :: rest) :
    (t.insert eval supplied).get c =
      match supplied.lookup c with
      | some v => v
      | none =>
          match d.default with
          | some x => eval x
          | none => .null := by
  simp [Table.insert, Row.get, h, List.lookup]

/-- When the first column of a table is a `uuid` primary key without default, an
INSERT stores a row that fits the table only if it supplies that identifier. -/
theorem insert_rowOk_first_no_default (t : Table) (eval : DefaultValue → Value)
    (supplied : Row) (c : String) (d : ColumnDefinition)
    (rest : List (String × ColumnDefinition)) (h : t.columns = (c, d) :: rest)
    (hty : d.type = "uuid") (hpk : d.primaryKey = true) (hdef : d.default = none)
    (hok : t.rowOk (t.insert eval supplied)) :
    ∃ u, supplied.lookup c = some (.uuid u) := by
  have hcol := hok.2 (c, d) (by rw [h]; exact List.mem_cons_self _ _)
  rw [insert_get_first t eval supplied c d rest h, hdef] at hcol
  cases hl : supplied.lookup c with
  | none =>
    simp only [hl] at hcol
    exact absurd rfl (hcol.2 (Or.inr hpk))
  | some v =>
    simp only [hl] at hcol
    obtain ⟨u, hu, -⟩ := hasType_uuid (hty ▸ hcol.1) (hcol.2 (Or.inr hpk))
    exact ⟨u, by rw [hu]⟩

/-! ## Statements about the schema -/

/-- C1: the call list of `up` is one `createExtension` (of `uuid-ossp`, with
`ifNotExists = true`), then five `createTable` calls naming config, yield, stat,
median, enriched in this order (no duplicate), then one `createFunction`
(`update_updated_at`) and three `createTrigger` calls; ten calls, nothing else. -/
theorem up_call_list :
    up.map Call.kind =
        [.createExtension, .createTable, .createTable, .createTable, .createTable,
         .createTable, .createFunction, .createTrigger, .createTrigger, .createTrigger] ∧
      extensions up = [("uuid-ossp", { ifNotExists := true })] ∧
      tableNames up = ["config", "yield", "stat", "median", "enriched"] ∧
      (tableNames up).Nodup ∧
      (functions up).map (·.functionName) = ["update_updated_at"] ∧
      (triggers up).length = 3 ∧
      up.length = 1 + 5 + 1 + 3 := by
  decide

/-- C2: the non-primary-key columns declared `unique` are exactly config.pool
and median.timestamp, both are also `notNull`, and so in every database the
schema admits no two rows of config hold the same pool string and no two rows
of median hold the same timestamp. -/
theorem unique_columns (db : Database) (h : admits (tables up) db) :
    uniqueColumns up = [("config", "pool"), ("median", "timestamp")] ∧
      ((tableD up "config").column? "pool").map (·.notNull) = some true ∧
      ((tableD up "median").column? "timestamp").map (·.notNull) = some true ∧
      (∀ r ∈ db.rows "config", ∃ s, r.get "pool" = .text s) ∧
      (db.rows "config").Pairwise (fun a b => a.get "pool" ≠ b.get "pool") ∧
      (∀ r ∈ db.rows "median", ∃ t, r.get "timestamp" = .timestamptz t) ∧
      (db.rows "median").Pairwise (fun a b => a.get "timestamp" ≠ b.get "timestamp") := by
  have hc : tableD up "config" ∈ tables up := by decide
  have hm : tableD up "median" ∈ tables up := by decide
  have hpool : (("pool", { type := "text", notNull := true, unique := true }) :
      String × ColumnDefinition) ∈ (tableD up "config").columns := by decide
  have hts : (("timestamp", { type := "timestamptz", notNull := true, unique := true }) :
      String × ColumnDefinition) ∈ (tableD up "median").columns := by decide
  refine ⟨by decide, by decide, by decide, ?_, ?_, ?_, ?_⟩
  · intro r hr
    exact hasType_text (admits_hasType h hc hpool r hr)
      (admits_notNull h hc hpool (Or.inl rfl) r hr)
  · exact admits_unique h hc hpool rfl rfl
  · intro r hr
    exact hasType_timestamptz (admits_hasType h hm hts r hr)
      (admits_notNull h hm hts (Or.inl rfl) r hr)
  · exact admits_unique h hm hts rfl rfl

/-- C2 at the sample database. -/
theorem unique_columns_witness :
    admits (tables up) sampleDb ∧
      (sampleDb.rows "config").Pairwise (fun a b => a.get "pool" ≠ b.get "pool") ∧
      (sampleDb.rows "median").Pairwise (fun a b => a.get "timestamp" ≠ b.get "timestamp") :=
  have h : admits (tables up) sampleDb := by decide
  ⟨h, (unique_columns sampleDb h).2.2.2.2.1, (unique_columns sampleDb h).2.2.2.2.2.2⟩

/-- C3: yield.configID is a `uuid` column, `notNull`, referencing the config
table, whose primary key is config_id, also `uuid`; configID is neither
`unique` nor a primary key.  So in every admitted database each yield row names
exactly one config row, and an admitted database may hold several yield rows
naming the same config row. -/
theorem yield_configID_references_config (db : Database) (h : admits (tables up) db) :
    (tableD up "yield").column? "configID" =
        some { type := "uuid", notNull := true, unique := false, primaryKey := false,
               default := none, references := some "\"config\"" } ∧
      (tableD up "yield").foreignKeys = [("configID", "config")] ∧
      (tableD up "config").primaryKey = ["config_id"] ∧
      ((tableD up "config").column? "config_id").map (·.type) = some "uuid" ∧
      (∀ y ∈ db.rows "yield",
        ∃! c, c ∈ db.rows "config" ∧ c.get "config_id" = y.get "configID") ∧
      (∃ db' : Database, admits (tables up) db' ∧
        ∃ y₁ ∈ db'.rows "yield", ∃ y₂ ∈ db'.rows "yield",
          y₁ ≠ y₂ ∧ y₁.get "configID" = y₂.get "configID") := by
  have hy : tableD up "yield" ∈ tables up := by decide
  have hc : tableD up "config" ∈ tables up := by decide
  have hcol : (("configID",
      { type := "uuid", notNull := true, references := some "\"config\"" }) :
      String × ColumnDefinition) ∈ (tableD up "yield").columns := by decide
  refine ⟨by decide, by decide, by decide, by decide, ?_, ?_⟩
  · intro y hyr
    have hnn : y.get "configID" ≠ .null := admits_notNull h hy hcol (Or.inl rfl) y hyr
    obtain ⟨key, hkey, c, hcr, hceq⟩ := (h _ hy).2.2 _ hcol "\"config\"" rfl y hyr hnn
    have hk : referencedKey (tables up) "\"config\"" = some ("config", "config_id") := by
      decide
    rw [hk] at hkey
    cases hkey
    refine ⟨c, ⟨hcr, hceq⟩, ?_⟩
    rintro c' ⟨hc'r, hc'eq⟩
    by_contra hne
    have hpk := (h _ hc).2.1.1
    have hsym : Symmetric fun a b : Row =>
        (tableD up "config").primaryKey.map a.get ≠ (tableD up "config").primaryKey.map b.get :=
      fun _ _ hab => fun hba => hab hba.symm
    have := hpk.forall hsym hc'r hcr hne
    apply this
    have hp : (tableD up "config").primaryKey = ["config_id"] := by decide
    simp only [hp, List.map]
    rw [hc'eq, hceq]
  · refine ⟨sampleDb, by decide, ?_⟩
    refine ⟨_, List.mem_cons_self _ _, _, List.mem_cons_of_mem _ (List.mem_cons_self _ _), ?_, ?_⟩
    · decide
    · decide

/-- C3 at the sample database: the second observation names exactly one pool. -/
theorem yield_configID_references_config_witness :
    admits (tables up) sampleDb ∧
      ∀ y ∈ sampleDb.rows "yield",
        ∃! c, c ∈ sampleDb.rows "config" ∧ c.get "config_id" = y.get "configID" :=
  have h : admits (tables up) sampleDb := by decide
  ⟨h, (yield_configID_references_config sampleDb h).2.2.2.2.1⟩

/-- C4, as stated, fails: it is not the case that both the yield and the stat
table definitions contain a column referencing config (stat has none). -/
theorem stat_references_config_fails :
    ¬ ((∃ fk ∈ (tableD up "yield").foreignKeys, fk.2 = "config") ∧
       (∃ fk ∈ (tableD up "stat").foreignKeys, fk.2 = "config")) := by
  decide

/-- C4, amended: of the two tables only yield is tied to config by a declared
foreign key (its column configID); no column of stat has a `references` option,
yield is the only table of the schema with one, and the schema admits a stat row
whose stat_id is the config_id of no config row. -/
theorem only_yield_references_config :
    (tableD up "yield").foreignKeys = [("configID", "config")] ∧
      (∀ cd ∈ (tableD up "stat").columns, cd.2.references = none) ∧
      ((tables up).filter (fun t => !t.foreignKeys.isEmpty)).map (·.name) = ["yield"] ∧
      (admits (tables up) sampleDb ∧
        ∃ s ∈ sampleDb.rows "stat", ∀ c ∈ sampleDb.rows "config",
          c.get "config_id" ≠ s.get "stat_id") := by
  decide

/-- C8, as stated, fails: the sample database is admitted and its second yield
row holds tvlUsd = -1, which is no non-negative integer. -/
theorem tvlUsd_negative_admitted :
    admits (tables up) sampleDb ∧
      ¬ ∀ y ∈ sampleDb.rows "yield", (y.get "tvlUsd").nonNegativeInteger := by
  refine ⟨by decide, ?_⟩
  intro hall
  have hex : ∃ y ∈ sampleDb.rows "yield", y.get "tvlUsd" = .int (-1) := by decide
  obtain ⟨y, hy, hv⟩ := hex
  obtain ⟨n, hn⟩ := hall y hy
  rw [hv] at hn
  injection hn with hn
  omega

/-- C8, amended: yield.tvlUsd is declared `bigint` and `notNull` and nothing
else, so every admitted yield row holds in tvlUsd a non-NULL integer of the
signed 64-bit range; the sign is not constrained. -/
theorem tvlUsd_is_bigint (db : Database) (h : admits (tables up) db) :
    (tableD up "yield").column? "tvlUsd" = some { type := "bigint", notNull := true } ∧
      ∀ y ∈ db.rows "yield",
        ∃ i : Int, y.get "tvlUsd" = .int i ∧ -2 ^ 63 ≤ i ∧ i < 2 ^ 63 := by
  have hy : tableD up "yield" ∈ tables up := by decide
  have hcol : (("tvlUsd", { type := "bigint", notNull := true }) :
      String × ColumnDefinition) ∈ (tableD up "yield").columns := by decide
  refine ⟨by decide, ?_⟩
  intro y hyr
  exact hasType_bigint (admits_hasType h hy hcol y hyr)
    (admits_notNull h hy hcol (Or.inl rfl) y hyr)

/-- C8 amended, at the sample database. -/
theorem tvlUsd_is_bigint_witness :
    admits (tables up) sampleDb ∧
      ∀ y ∈ sampleDb.rows "yield",
        ∃ i : Int, y.get "tvlUsd" = .int i ∧ -2 ^ 63 ≤ i ∧ i < 2 ^ 63 :=
  have h : admits (tables up) sampleDb := by decide
  ⟨h, (tvlUsd_is_bigint sampleDb h).2⟩

/-- C5: a table created by `up` has an updated_at column exactly when `up`
creates a trigger on it; the column is then `timestamptz`, `notNull`, with
default `current_timestamp`; this is so for config, stat and enriched and for
no other table.  Each of the three triggers is named update_updated_at, fires
BEFORE UPDATE at ROW level and calls update_updated_at, which `up` creates as a
plpgsql function without parameters returning TRIGGER, whose body is
`NEW.updated_at = now(); RETURN NEW;`.  yield and median have neither the
column nor a trigger. -/
theorem updated_at_iff_trigger :
    (∀ t ∈ tables up,
        ("updated_at" ∈ t.columnNames ↔ ∃ g ∈ triggers up, g.tableName = t.name) ∧
        ("updated_at" ∈ t.columnNames →
          t.column? "updated_at" =
            some { type := "timestamptz", notNull := true,
                   default := some (.func "current_timestamp") })) ∧
      ((tables up).filter fun t => decide ("updated_at" ∈ t.columnNames)).map (·.name) =
        ["config", "stat", "enriched"] ∧
      (triggers up).map (·.tableName) = ["config", "stat", "enriched"] ∧
      (∀ g ∈ triggers up,
        g.triggerName = "update_updated_at" ∧
        g.options = { when := "BEFORE", operation := "UPDATE",
                      function := "update_updated_at", level := "ROW" }) ∧
      (functions up).map
          (fun f => (f.functionName, f.functionParams, f.options.language, f.options.returns,
            sqlLines f.definition)) =
        [("update_updated_at", [], "plpgsql", "TRIGGER",
          ["BEGIN", "NEW.updated_at = now();", "RETURN NEW;", "END"])] ∧
      (∀ n ∈ ["yield", "median"],
        n ∈ tableNames up ∧ "updated_at" ∉ (tableD up n).columnNames ∧
        ∀ g ∈ triggers up, g.tableName ≠ n) := by
  decide

/-- C6: with a primary key counted as required, the optional columns of config
are exactly poolMeta, underlyingTokens, rewardTokens (the latter two of type
`text[]`) and its required columns are config_id, pool, project, chain, symbol,
url, updated_at; the optional columns of yield are exactly apyBase, apyReward
and its required columns are yield_id, configID, timestamp, tvlUsd, apy.  In an
admitted database no required column of a config or yield row is NULL, while an
admitted database may hold rows in which every optional column is NULL. -/
theorem optional_columns (db : Database) (h : admits (tables up) db) :
    (tableD up "config").optionalColumns = ["poolMeta", "underlyingTokens", "rewardTokens"] ∧
      (tableD up "config").requiredColumns =
        ["config_id", "pool", "project", "chain", "symbol", "url", "updated_at"] ∧
      ((tableD up "config").column? "underlyingTokens").map (·.type) = some "text[]" ∧
      ((tableD up "config").column? "rewardTokens").map (·.type) = some "text[]" ∧
      (tableD up "yield").optionalColumns = ["apyBase", "apyReward"] ∧
      (tableD up "yield").requiredColumns =
        ["yield_id", "configID", "timestamp", "tvlUsd", "apy"] ∧
      (∀ r ∈ db.rows "config", ∀ c ∈ (tableD up "config").requiredColumns, r.get c ≠ .null) ∧
      (∀ r ∈ db.rows "yield", ∀ c ∈ (tableD up "yield").requiredColumns, r.get c ≠ .null) ∧
      (∃ db' : Database, admits (tables up) db' ∧
        (∃ r ∈ db'.rows "config",
          ∀ c ∈ (tableD up "config").optionalColumns, r.get c = .null) ∧
        (∃ r ∈ db'.rows "yield",
          ∀ c ∈ (tableD up "yield").optionalColumns, r.get c = .null)) := by
  have hc : tableD up "config" ∈ tables up := by decide
  have hy : tableD up "yield" ∈ tables up := by decide
  refine ⟨by decide, by decide, by decide, by decide, by decide, by decide, ?_, ?_, ?_⟩
  · intro r hr c hcr
    exact admits_required h hc hcr r hr
  · intro r hr c hcr
    exact admits_required h hy hcr r hr
  · exact ⟨sampleDb, by decide, by decide, by decide⟩

/-- C6 at the sample database. -/
theorem optional_columns_witness :
    admits (tables up) sampleDb ∧
      (∀ r ∈ sampleDb.rows "config", ∀ c ∈ (tableD up "config").requiredColumns,
        r.get c ≠ .null) ∧
      (∀ r ∈ sampleDb.rows "yield", ∀ c ∈ (tableD up "yield").requiredColumns,
        r.get c ≠ .null) :=
  have h : admits (tables up) sampleDb := by decide
  ⟨h, (optional_columns sampleDb h).2.2.2.2.2.2.1, (optional_columns sampleDb h).2.2.2.2.2.2.2.1⟩

/-- C7: every table created by `up` has exactly one primary-key column, of type
`uuid`; it has the default `uuid_generate_v4()` exactly in yield and median,
and no default at all in config, stat and enriched.  So an INSERT into config,
stat or enriched stores an admissible row only if the statement itself supplies
the identifier, whereas in yield and median an identifier left out is generated
by the database; and the schema admits a database whose stat and enriched rows
carry a config row's identifier as their own. -/
theorem primary_keys (eval : DefaultValue → Value) (supplied : Row) :
    (tables up).map (fun t => (t.name, t.primaryKey)) =
        [("config", ["config_id"]), ("yield", ["yield_id"]), ("stat", ["stat_id"]),
         ("median", ["median_id"]), ("enriched", ["enriched_id"])] ∧
      (∀ t ∈ tables up, ∀ pk ∈ t.primaryKey,
        (t.column? pk).map (·.type) = some "uuid" ∧
        (t.defaultOf pk = some (.PgLiteral "uuid_generate_v4()") ↔
          t.name = "yield" ∨ t.name = "median") ∧
        (t.defaultOf pk = none ↔
          t.name = "config" ∨ t.name = "stat" ∨ t.name = "enriched")) ∧
      ((tableD up "config").rowOk ((tableD up "config").insert eval supplied) →
        ∃ u, supplied.lookup "config_id" = some (.uuid u)) ∧
      ((tableD up "stat").rowOk ((tableD up "stat").insert eval supplied) →
        ∃ u, supplied.lookup "stat_id" = some (.uuid u)) ∧
      ((tableD up "enriched").rowOk ((tableD up "enriched").insert eval supplied) →
        ∃ u, supplied.lookup "enriched_id" = some (.uuid u)) ∧
      (supplied.lookup "yield_id" = none →
        ((tableD up "yield").insert eval supplied).get "yield_id" =
          eval (.PgLiteral "uuid_generate_v4()")) ∧
      (supplied.lookup "median_id" = none →
        ((tableD up "median").insert eval supplied).get "median_id" =
          eval (.PgLiteral "uuid_generate_v4()")) ∧
      (admits (tables up) sharedIdDb ∧
        ∃ c ∈ sharedIdDb.rows "config", ∃ s ∈ sharedIdDb.rows "stat",
          ∃ e ∈ sharedIdDb.rows "enriched",
            s.get "stat_id" = c.get "config_id" ∧ e.get "enriched_id" = c.get "config_id") := by
  refine ⟨by decide, by decide, ?_, ?_, ?_, ?_, ?_, by decide⟩
  · exact insert_rowOk_first_no_default _ eval supplied "config_id"
      { type := "uuid", primaryKey := true } (tableD up "config").columns.tail
      (by decide) rfl rfl rfl
  · exact insert_rowOk_first_no_default _ eval supplied "stat_id"
      { type := "uuid", primaryKey := true } (tableD up "stat").columns.tail
      (by decide) rfl rfl rfl
  · exact insert_rowOk_first_no_default _ eval supplied "enriched_id"
      { type := "uuid", primaryKey := true } (tableD up "enriched").columns.tail
      (by decide) rfl rfl rfl
  · intro hl
    have hcols : (tableD up "yield").columns =
        ("yield_id", { type := "uuid", default := some (.PgLiteral "uuid_generate_v4()"),
                       primaryKey := true }) :: (tableD up "yield").columns.tail := by decide
    rw [insert_get_first _ eval supplied _ _ _ hcols, hl]
  · intro hl
    have hcols : (tableD up "median").columns =
        ("median_id", { type := "uuid", default := some (.PgLiteral "uuid_generate_v4()"),
                        primaryKey := true }) :: (tableD up "median").columns.tail := by decide
    rw [insert_get_first _ eval supplied _ _ _ hcols, hl]

/-! ## Statement about the order of the calls -/

/-- C10: in the call list of `up` everything is created before it is used.
The `createExtension` of uuid-ossp comes before every `createTable` with a
column default `uuid_generate_v4()` (these are yield and median); the table a
`references` option names is created before the table declaring it (only yield
declares one, naming config); and before each `createTrigger` come both the
`createTable` of its table and the `createFunction` of its function. -/
theorem created_before_use :
    (∀ i < up.length, ∀ c ∈ up[i]?,
        DefaultValue.PgLiteral "uuid_generate_v4()" ∈ c.defaults →
          ∃ e ∈ up.take i, e.createsExtension "uuid-ossp" = true) ∧
      ((tables up).filter fun t =>
          t.columns.any fun cd =>
            cd.2.default == some (.PgLiteral "uuid_generate_v4()")).map (·.name) =
        ["yield", "median"] ∧
      (∀ i < up.length, ∀ c ∈ up[i]?, ∀ ref ∈ c.referencedTables,
          ∃ e ∈ up.take i, e.createsTable ref = true) ∧
      (up.map Call.referencedTables).filter (fun l => !l.isEmpty) = [["config"]] ∧
      ((tables up).filter fun t => !t.foreignKeys.isEmpty).map
          (fun t => (t.name, t.foreignKeys)) = [("yield", [("configID", "config")])] ∧
      (∀ i < up.length, ∀ c ∈ up[i]?, ∀ use ∈ c.triggerUses,
          (∃ e ∈ up.take i, e.createsTable use.1 = true) ∧
          (∃ e ∈ up.take i, e.createsFunction use.2 = true)) ∧
      (up.filterMap Call.triggerUses) =
        [("config", "update_updated_at"), ("stat", "update_updated_at"),
         ("enriched", "update_updated_at")] := by
  decide

end YieldServer
